import Mathlib

/-!
Shallow embedding of the order/inventory domain core of `backend/api/views.py`
(ZuriJabari/urban): the custom actions `ProductViewSet.update_stock` and
`OrderViewSet.update_status`, and the access-filtering query sets
`OrderViewSet.get_queryset` and `OrderItemViewSet.get_queryset`.

Stores are lists of records; `save` writes a record back into the store by
primary key; a request value that may be absent is an `Option`. Responses are
the structured payloads the views return: a success message, a 400 error
message, or the framework's 404 for a failed object lookup.
-/

structure User where
  id : Nat
  is_staff : Bool
deriving DecidableEq

structure Product where
  id : Nat
  name : String
  price : Int
  stock : Int
  category : Nat
deriving DecidableEq

structure Order where
  id : Nat
  user : Nat
  status : String
  created_at : Nat
deriving DecidableEq

structure OrderItem where
  id : Nat
  order_id : Nat
  product : Nat
  quantity : Nat
  price : Int
deriving DecidableEq

/-- The structured results a view hands back: `Response({'status': msg})`,
`Response({'error': msg}, 400)`, or the 404 raised by `get_object_or_404`. -/
inductive Response where
  | ok (msg : String) : Response
  | badRequest (msg : String) : Response
  | notFound : Response
deriving DecidableEq

/-- Modelled from the spec: `Order.STATUS_CHOICES` is declared in
`backend/api/models.py`, which is not among the provided source files; the
spec fixes the configured enumeration as `pending`, `processing`, `shipped`,
`delivered`, `cancelled` (value/label pairs, as Django choices are). -/
def STATUS_CHOICES : List (String × String) :=
  [("pending", "Pending"), ("processing", "Processing"), ("shipped", "Shipped"),
    ("delivered", "Delivered"), ("cancelled", "Cancelled")]

/-- `get_object_or_404` by primary key over a store of orders. -/
def findOrder (db : List Order) (pk : Nat) : Option Order :=
  db.find? (fun o => o.id == pk)

/-- `order.save()`: persist the record into the store at its primary key. -/
def saveOrder (db : List Order) (o : Order) : List Order :=
  db.map (fun x => if x.id == o.id then o else x)

/-- `get_object_or_404` by primary key over a store of products. -/
def findProduct (db : List Product) (pk : Nat) : Option Product :=
  db.find? (fun p => p.id == pk)

/-- `product.save()`: persist the record into the store at its primary key. -/
def saveProduct (db : List Product) (p : Product) : List Product :=
  db.map (fun x => if x.id == p.id then p else x)

namespace ProductViewSet

/-- `ProductViewSet.update_stock` (views.py lines 29-39): resolve the product
by pk; read `request.data.get('stock', None)`; if the value `is not None`
(presence test, not truthiness) assign it to `product.stock`, save, and
answer `stock updated`; otherwise answer 400 `stock value not provided`. -/
def update_stock (db : List Product) (pk : Nat) (new_stock : Option Int) :
    List Product × Response :=
  match findProduct db pk with
  | none => (db, Response.notFound)
  | some product =>
      match new_stock with
      | some v =>
          (saveProduct db { product with stock := v }, Response.ok "stock updated")
      | none => (db, Response.badRequest "stock value not provided")

end ProductViewSet

namespace OrderViewSet

/-- `OrderViewSet.get_queryset` (views.py lines 45-48): staff see all orders,
everyone else only the orders filtered by `user=self.request.user`. -/
def get_queryset (db : List Order) (user : User) : List Order :=
  if user.is_staff then db else db.filter (fun o => o.user == user.id)

/-- `OrderViewSet.update_status` (views.py lines 53-63): resolve the order by
pk through the user-filtered queryset; read `request.data.get('status',
None)`; if `new_status` is truthy (non-None and non-empty) and is a key of
`dict(Order.STATUS_CHOICES)` then assign it, save, and answer
`order status updated`; otherwise answer 400 `invalid status`. The
enumeration is passed in as `choices` since it lives in the models module. -/
def update_status (choices : List (String × String)) (user : User)
    (db : List Order) (pk : Nat) (new_status : Option String) :
    List Order × Response :=
  match findOrder (get_queryset db user) pk with
  | none => (db, Response.notFound)
  | some order =>
      match new_status with
      | some s =>
          if s ≠ "" ∧ s ∈ choices.map Prod.fst then
            (saveOrder db { order with status := s },
              Response.ok "order status updated")
          else (db, Response.badRequest "invalid status")
      | none => (db, Response.badRequest "invalid status")

end OrderViewSet

namespace OrderItemViewSet

/-- `OrderItemViewSet.get_queryset` (views.py lines 70-74): with an
`order_pk` kwarg, the items filtered by `order_id`; without one,
`OrderItem.objects.none()`. -/
def get_queryset (db : List OrderItem) (order_pk : Option Nat) :
    List OrderItem :=
  match order_pk with
  | some oid => db.filter (fun it => it.order_id == oid)
  | none => []

end OrderItemViewSet

/-! Concrete records used by the witness statements. -/

def demoStaff : User := ⟨1, true⟩

def demoOwner : User := ⟨2, false⟩

def demoOrders : List Order := [⟨7, 2, "pending", 0⟩, ⟨8, 3, "shipped", 0⟩]

def demoDelivered : List Order := [⟨7, 2, "delivered", 0⟩]

def demoProducts : List Product := [⟨1, "widget", 100, 5, 1⟩]

def demoItems : List OrderItem := [⟨1, 7, 1, 2, 100⟩, ⟨2, 8, 1, 1, 100⟩]

example : ProductViewSet.update_stock demoProducts 1 (some 10) =
    ([⟨1, "widget", 100, 10, 1⟩], Response.ok "stock updated") := by decide

example : ProductViewSet.update_stock demoProducts 1 none =
    (demoProducts, Response.badRequest "stock value not provided") := by decide

example : OrderViewSet.update_status STATUS_CHOICES demoStaff demoOrders 7
    (some "shipped") =
    ([⟨7, 2, "shipped", 0⟩, ⟨8, 3, "shipped", 0⟩],
      Response.ok "order status updated") := by decide

example : OrderViewSet.update_status STATUS_CHOICES demoStaff demoOrders 7
    (some "bogus") =
    (demoOrders, Response.badRequest "invalid status") := by decide

example : OrderViewSet.update_status STATUS_CHOICES demoOwner demoOrders 8
    (some "pending") = (demoOrders, Response.notFound) := by decide

example : OrderItemViewSet.get_queryset demoItems none = [] := by decide

example : OrderItemViewSet.get_queryset demoItems (some 7) =
    [⟨1, 7, 1, 2, 100⟩] := by decide

/-! Claim theorems. -/

/-- C1: for every order and every requested status value, `update_status`
succeeds — setting the order's status field to exactly the requested value
and persisting it — if and only if the requested value is non-empty and is a
member of the configured status enumeration. -/
theorem update_status_success_iff
    (choices : List (String × String)) (user : User) (db : List Order)
    (pk : Nat) (req : Option String) (order : Order)
    (hfind : findOrder (OrderViewSet.get_queryset db user) pk = some order) :
    ((OrderViewSet.update_status choices user db pk req).snd =
        Response.ok "order status updated"
      ↔ ∃ s, req = some s ∧ s ≠ "" ∧ s ∈ choices.map Prod.fst)
    ∧ (∀ s, req = some s → s ≠ "" → s ∈ choices.map Prod.fst →
        OrderViewSet.update_status choices user db pk req =
          (saveOrder db { order with status := s },
            Response.ok "order status updated")) := by
  unfold OrderViewSet.update_status
  rw [hfind]
  constructor
  · cases req with
    | none =>
        dsimp only
        constructor
        · intro hc
          cases hc
        · rintro ⟨t, ht, h1, h2⟩
          cases ht
    | some s =>
        dsimp only
        by_cases h : s ≠ "" ∧ s ∈ choices.map Prod.fst
        · rw [if_pos h]
          exact ⟨fun _ => ⟨s, rfl, h.1, h.2⟩, fun _ => rfl⟩
        · rw [if_neg h]
          constructor
          · intro hc
            cases hc
          · rintro ⟨t, ht, h1, h2⟩
            cases ht
            exact absurd ⟨h1, h2⟩ h
  · intro s hs h1 h2
    cases hs
    dsimp only
    rw [if_pos ⟨h1, h2⟩]

/-- C1 witness: a staff user moving order 7 to `shipped`. -/
theorem update_status_success_iff_witness :
    (OrderViewSet.update_status STATUS_CHOICES demoStaff demoOrders 7
        (some "shipped")).snd = Response.ok "order status updated" :=
  ((update_status_success_iff STATUS_CHOICES demoStaff demoOrders 7
      (some "shipped") ⟨7, 2, "pending", 0⟩ (by decide)).1).mpr
    ⟨"shipped", rfl, by decide, by decide⟩

/-- C2: for every product and every present requested stock value `v`,
`update_stock` sets the product's stock to exactly `v` — negative values
included, no clamping and no range validation — persists the updated product
and answers with the success signal. -/
theorem update_stock_present
    (db : List Product) (pk : Nat) (v : Int) (product : Product)
    (hfind : findProduct db pk = some product) :
    ProductViewSet.update_stock db pk (some v) =
      (saveProduct db { product with stock := v },
        Response.ok "stock updated") := by
  unfold ProductViewSet.update_stock
  rw [hfind]

/-- C2 witness: a negative stock value is stored as given. -/
theorem update_stock_present_witness :
    ProductViewSet.update_stock demoProducts 1 (some (-3)) =
      (saveProduct demoProducts ⟨1, "widget", 100, -3, 1⟩,
        Response.ok "stock updated") :=
  update_stock_present demoProducts 1 (-3) ⟨1, "widget", 100, 5, 1⟩ (by decide)

/-- C3: `get_queryset` on orders returns the whole store for a staff actor,
and for a non-staff actor exactly the orders whose owner equals the actor,
and no others. -/
theorem listVisibleOrders_spec (db : List Order) (u : User) :
    (u.is_staff = true → OrderViewSet.get_queryset db u = db)
    ∧ (u.is_staff = false → ∀ o : Order,
        o ∈ OrderViewSet.get_queryset db u ↔ o ∈ db ∧ o.user = u.id) := by
  unfold OrderViewSet.get_queryset
  constructor
  · intro h
    rw [if_pos h]
  · intro h o
    rw [if_neg (by rw [h]; exact Bool.false_ne_true)]
    simp [List.mem_filter]

/-- C3 witness: the non-staff owner of order 7 sees exactly their order. -/
theorem listVisibleOrders_spec_witness :
    (⟨7, 2, "pending", 0⟩ : Order) ∈
        OrderViewSet.get_queryset demoOrders demoOwner
      ↔ (⟨7, 2, "pending", 0⟩ : Order) ∈ demoOrders
          ∧ (⟨7, 2, "pending", 0⟩ : Order).user = demoOwner.id :=
  (listVisibleOrders_spec demoOrders demoOwner).2 (by decide) ⟨7, 2, "pending", 0⟩

/-- C4: `get_queryset` on order items returns the empty sequence when no
scoping order id is supplied, even when items exist, and with a scoping id
exactly the items whose parent-order id equals it. -/
theorem listVisibleOrderItems_spec (db : List OrderItem) :
    OrderItemViewSet.get_queryset db none = []
    ∧ ∀ (oid : Nat) (it : OrderItem),
        it ∈ OrderItemViewSet.get_queryset db (some oid)
          ↔ it ∈ db ∧ it.order_id = oid := by
  unfold OrderItemViewSet.get_queryset
  exact ⟨rfl, fun oid it => by simp [List.mem_filter]⟩

/-- C5: no transition-graph restriction: every status value in the configured
enumeration is accepted and applied, regardless of the order's current
status. -/
theorem update_status_no_transition_graph
    (user : User) (db : List Order) (pk : Nat) (order : Order) (s : String)
    (hfind : findOrder (OrderViewSet.get_queryset db user) pk = some order)
    (hs : s ∈ STATUS_CHOICES.map Prod.fst) :
    OrderViewSet.update_status STATUS_CHOICES user db pk (some s) =
      (saveOrder db { order with status := s },
        Response.ok "order status updated") := by
  have hne : s ≠ "" := by
    revert hs
    simp only [STATUS_CHOICES, List.map, List.mem_cons, List.not_mem_nil, or_false]
    rintro (rfl | rfl | rfl | rfl | rfl) <;> decide
  unfold OrderViewSet.update_status
  rw [hfind]
  dsimp only
  rw [if_pos ⟨hne, hs⟩]

/-- C5 witness: a `delivered` order is moved back to `pending`. -/
theorem update_status_no_transition_graph_witness :
    OrderViewSet.update_status STATUS_CHOICES demoStaff demoDelivered 7
        (some "pending") =
      (saveOrder demoDelivered ⟨7, 2, "pending", 0⟩,
        Response.ok "order status updated") :=
  update_status_no_transition_graph demoStaff demoDelivered 7
    ⟨7, 2, "delivered", 0⟩ "pending" (by decide) (by decide)

/-- C6: `update_stock` with an absent stock value answers 400
`stock value not provided` and leaves the store — the product's stock field
included — unchanged: nothing is persisted on this failure path. -/
theorem update_stock_absent
    (db : List Product) (pk : Nat) (product : Product)
    (hfind : findProduct db pk = some product) :
    ProductViewSet.update_stock db pk none =
      (db, Response.badRequest "stock value not provided") := by
  unfold ProductViewSet.update_stock
  rw [hfind]

/-- C6 witness: the absent-value failure on the demo store. -/
theorem update_stock_absent_witness :
    ProductViewSet.update_stock demoProducts 1 none =
      (demoProducts, Response.badRequest "stock value not provided") :=
  update_stock_absent demoProducts 1 ⟨1, "widget", 100, 5, 1⟩ (by decide)

/-- C7: `update_status` with a requested value that is empty, or not a member
of the configured status set (absence of the value included), answers 400
`invalid status` and leaves the store — the order's status included —
unchanged: nothing is persisted on this failure path. -/
theorem update_status_invalid
    (choices : List (String × String)) (user : User) (db : List Order)
    (pk : Nat) (req : Option String) (order : Order)
    (hfind : findOrder (OrderViewSet.get_queryset db user) pk = some order)
    (hbad : ∀ s, req = some s → s = "" ∨ s ∉ choices.map Prod.fst) :
    OrderViewSet.update_status choices user db pk req =
      (db, Response.badRequest "invalid status") := by
  unfold OrderViewSet.update_status
  rw [hfind]
  cases req with
  | none => rfl
  | some s =>
      dsimp only
      rw [if_neg]
      rintro ⟨h1, h2⟩
      rcases hbad s rfl with h | h
      · exact h1 h
      · exact h h2

/-- C7 witness: the value `bogus` is rejected and the store is untouched. -/
theorem update_status_invalid_witness :
    OrderViewSet.update_status STATUS_CHOICES demoStaff demoOrders 7
        (some "bogus") =
      (demoOrders, Response.badRequest "invalid status") :=
  update_status_invalid STATUS_CHOICES demoStaff demoOrders 7 (some "bogus")
    ⟨7, 2, "pending", 0⟩ (by decide)
    (fun s hs => Or.inr (by cases hs; decide))

/-- C8: the outcome of `update_status` — response and resulting store — does
not depend on the acting user: two calls on the same order with the same
requested status by different acting users produce the same outcome. The
user enters only the queryset through which the order is resolved. -/
theorem update_status_user_independent
    (choices : List (String × String)) (u₁ u₂ : User) (db : List Order)
    (pk : Nat) (req : Option String) (order : Order)
    (h₁ : findOrder (OrderViewSet.get_queryset db u₁) pk = some order)
    (h₂ : findOrder (OrderViewSet.get_queryset db u₂) pk = some order) :
    OrderViewSet.update_status choices u₁ db pk req =
      OrderViewSet.update_status choices u₂ db pk req := by
  unfold OrderViewSet.update_status
  rw [h₁, h₂]

/-- C8 witness: a staff user and the non-staff owner update order 7 to
`cancelled` with identical outcomes. -/
theorem update_status_user_independent_witness :
    OrderViewSet.update_status STATUS_CHOICES demoStaff demoOrders 7
        (some "cancelled") =
      OrderViewSet.update_status STATUS_CHOICES demoOwner demoOrders 7
        (some "cancelled") :=
  update_status_user_independent STATUS_CHOICES demoStaff demoOwner demoOrders
    7 (some "cancelled") ⟨7, 2, "pending", 0⟩ (by decide) (by decide)

/-- C9: every operation of the domain core is a total function whose result
is one of the structured outcomes — a success message, a kind+message 400
error, the collaborator's 404, or a sublist of the store — for every input
condition: present or absent stock value, any status value, staff or
non-staff actor, scoped or unscoped item query. No input raises an
unrecoverable error. -/
theorem operations_return_structured_results
    (choices : List (String × String)) (user : User)
    (pdb : List Product) (odb : List Order) (idb : List OrderItem)
    (ppk opk : Nat) (vstock : Option Int) (vstatus : Option String)
    (scope : Option Nat) :
    ((ProductViewSet.update_stock pdb ppk vstock).snd =
        Response.ok "stock updated"
      ∨ (ProductViewSet.update_stock pdb ppk vstock).snd =
          Response.badRequest "stock value not provided"
      ∨ (ProductViewSet.update_stock pdb ppk vstock).snd = Response.notFound)
    ∧ ((OrderViewSet.update_status choices user odb opk vstatus).snd =
          Response.ok "order status updated"
      ∨ (OrderViewSet.update_status choices user odb opk vstatus).snd =
          Response.badRequest "invalid status"
      ∨ (OrderViewSet.update_status choices user odb opk vstatus).snd =
          Response.notFound)
    ∧ (OrderViewSet.get_queryset odb user = odb
      ∨ OrderViewSet.get_queryset odb user =
          odb.filter (fun o => o.user == user.id))
    ∧ (OrderItemViewSet.get_queryset idb scope = []
      ∨ ∃ oid, scope = some oid
          ∧ OrderItemViewSet.get_queryset idb scope =
              idb.filter (fun it => it.order_id == oid)) := by
  refine ⟨?_, ?_, ?_, ?_⟩
  · unfold ProductViewSet.update_stock
    cases findProduct pdb ppk with
    | none => exact Or.inr (Or.inr rfl)
    | some product =>
        cases vstock with
        | some v => exact Or.inl rfl
        | none => exact Or.inr (Or.inl rfl)
  · unfold OrderViewSet.update_status
    cases findOrder (OrderViewSet.get_queryset odb user) opk with
    | none => exact Or.inr (Or.inr rfl)
    | some order =>
        cases vstatus with
        | some s =>
            dsimp only
            by_cases h : s ≠ "" ∧ s ∈ choices.map Prod.fst
            · rw [if_pos h]
              exact Or.inl rfl
            · rw [if_neg h]
              exact Or.inr (Or.inl rfl)
        | none => exact Or.inr (Or.inl rfl)
  · unfold OrderViewSet.get_queryset
    cases user.is_staff with
    | true => exact Or.inl rfl
    | false => exact Or.inr rfl
  · unfold OrderItemViewSet.get_queryset
    cases scope with
    | none => exact Or.inl rfl
    | some oid => exact Or.inr ⟨oid, rfl, rfl⟩

/-- C10: presence of the stock value is tested as distinct-from-absent, so a
requested stock of `0` succeeds and stores exactly `0`; the status guard is a
truthiness test, so an empty-string status is rejected for every
configuration, even one whose enumeration contains the empty string —
before the membership test. -/
theorem presence_test_vs_truthiness_test
    (pdb : List Product) (ppk : Nat) (product : Product)
    (hfind : findProduct pdb ppk = some product) :
    (ProductViewSet.update_stock pdb ppk (some 0) =
      (saveProduct pdb { product with stock := 0 },
        Response.ok "stock updated"))
    ∧ (∀ (choices : List (String × String)) (user : User) (odb : List Order)
          (opk : Nat) (order : Order),
        findOrder (OrderViewSet.get_queryset odb user) opk = some order →
        OrderViewSet.update_status choices user odb opk (some "") =
          (odb, Response.badRequest "invalid status")) := by
  constructor
  · unfold ProductViewSet.update_stock
    rw [hfind]
  · intro choices user odb opk order hfo
    unfold OrderViewSet.update_status
    rw [hfo]
    dsimp only
    rw [if_neg]
    rintro ⟨h1, _⟩
    exact h1 rfl

/-- C10 witness: stock `0` is stored as `0`, while the empty-string status is
rejected even against a configuration that lists the empty string. -/
theorem presence_test_vs_truthiness_test_witness :
    (ProductViewSet.update_stock demoProducts 1 (some 0) =
      (saveProduct demoProducts ⟨1, "widget", 100, 0, 1⟩,
        Response.ok "stock updated"))
    ∧ (OrderViewSet.update_status [("", "Empty")] demoStaff demoOrders 7
        (some "") = (demoOrders, Response.badRequest "invalid status")) :=
  ⟨(presence_test_vs_truthiness_test demoProducts 1 ⟨1, "widget", 100, 5, 1⟩
      (by decide)).1,
    (presence_test_vs_truthiness_test demoProducts 1 ⟨1, "widget", 100, 5, 1⟩
      (by decide)).2 [("", "Empty")] demoStaff demoOrders 7
      ⟨7, 2, "pending", 0⟩ (by decide)⟩
